import Mathlib

/-!
Shallow embedding of `src/Models/fire_gan.py` (FIRe-GAN generators).

The file declares layer stacks with Keras.  We embed each layer
constructor call as a `LayerSpec` value recording every declared
hyperparameter, a `keras.Sequential` as the list of layers added to it,
and the functional-API graph of Generator 1 as a symbolic tensor
expression.  A shape semantics mirrors TensorFlow's output-size
formulas for `same` / `valid` padding.

Python name resolution matters here: the module imports only
`tf`, `keras`, `Conv2D`, `BatchNormalization`, `Conv2DTranspose` and
`LeakyReLU` (line 12-14); the name `SpectralNormalization` used in the
`spectral_norm=True` branch of `create_g2_firegan` is never bound, so
that branch raises a `NameError` at call time.  We model module-level
name lookup explicitly and make `create_g2_firegan` return
`Except PyError SeqModel`.
-/

namespace FireGan

/-- Padding mode of a Keras convolution layer. -/
inductive Padding
  | same
  | valid
deriving DecidableEq, Repr

/-- Activation declared on a layer (`linear` is Keras's "no activation"). -/
inductive Activation
  | linear
  | tanh
deriving DecidableEq, Repr

/-- Kernel initializer argument.  `randomNormal mean stddev` embeds
`tf.random_normal_initializer(mean, stddev)`; `heUniform` embeds the
string `'he_uniform'`.  Fractional arguments are exact, in hundredths:
`randomNormal 0 2` is `tf.random_normal_initializer(0., 0.02)`. -/
inductive KInit
  | randomNormal (meanHundredths stddevHundredths : Nat)
  | heUniform
deriving DecidableEq, Repr

/-- One Keras layer as declared in the source, with every hyperparameter
the source passes (or Keras defaults, made explicit): filters, kernel
height/width, stride height/width, padding, kernel initializer, bias
use, activation.  `spectralNormalization l` is the wrapper
`SpectralNormalization(l)`. -/
inductive LayerSpec
  | conv2D (filters kh kw sh sw : Nat) (padding : Padding)
      (kernelInit : KInit) (useBias : Bool) (activation : Activation)
  | conv2DTranspose (filters kh kw sh sw : Nat) (padding : Padding)
      (kernelInit : KInit) (useBias : Bool) (activation : Activation)
  | batchNormalization
  | leakyReLU (alphaHundredths : Nat)
  | reLU
  | dropout (rateHundredths : Nat)
  | spectralNormalization (inner : LayerSpec)
deriving DecidableEq, Repr

/-- `downsample(filters, size, apply_batchnorm)` (fire_gan.py lines 23-37):
a `Sequential` built by `add` calls — `Conv2D(filters, size, strides=2,
padding='same', kernel_initializer=tf.random_normal_initializer(0., 0.02),
use_bias=False)`, then `BatchNormalization()` if the flag is set, then
`LeakyReLU()` (Keras default alpha 0.3, i.e. 30 hundredths). -/
def downsample (filters size : Nat) (apply_batchnorm : Bool) : List LayerSpec :=
  let result : List LayerSpec := []
  let result := result ++
    [LayerSpec.conv2D filters size size 2 2 Padding.same
      (KInit.randomNormal 0 2) false Activation.linear]
  let result := if apply_batchnorm then result ++ [LayerSpec.batchNormalization] else result
  result ++ [LayerSpec.leakyReLU 30]

/-- `upsample(filters, size, apply_dropout)` (fire_gan.py lines 39-55):
`Conv2DTranspose(filters, size, strides=2, padding='same',
kernel_initializer=tf.random_normal_initializer(0., 0.02),
use_bias=False)`, then `BatchNormalization()`, then `Dropout(0.5)` if the
flag is set, then `ReLU()`. -/
def upsample (filters size : Nat) (apply_dropout : Bool) : List LayerSpec :=
  let result : List LayerSpec := []
  let result := result ++
    [LayerSpec.conv2DTranspose filters size size 2 2 Padding.same
      (KInit.randomNormal 0 2) false Activation.linear]
  let result := result ++ [LayerSpec.batchNormalization]
  let result := if apply_dropout then result ++ [LayerSpec.dropout 50] else result
  result ++ [LayerSpec.reLU]

/-- The `down_stack` list of `create_g1_firegan_unet` (lines 62-70).
Calls without the keyword use the Python default `apply_batchnorm=True`. -/
def down_stack : List (List LayerSpec) :=
  [downsample 64 4 false,
   downsample 128 4 true,
   downsample 256 4 true,
   downsample 512 4 true,
   downsample 512 4 true,
   downsample 512 4 true,
   downsample 512 4 true]

/-- The `up_stack` list of `create_g1_firegan_unet` (lines 71-78).
Calls without the keyword use the Python default `apply_dropout=False`. -/
def up_stack : List (List LayerSpec) :=
  [upsample 512 4 true,
   upsample 512 4 true,
   upsample 512 4 true,
   upsample 256 4 false,
   upsample 128 4 false,
   upsample 64 4 false]

/-- The `last` layer of Generator 1 (lines 80-84):
`Conv2DTranspose(3, 4, strides=2, padding='same',
kernel_initializer=tf.random_normal_initializer(0., 0.02),
activation='tanh')` (Keras default `use_bias=True`). -/
def g1Last : LayerSpec :=
  LayerSpec.conv2DTranspose 3 4 4 2 2 Padding.same
    (KInit.randomNormal 0 2) true Activation.tanh

/-- Symbolic tensor expression for the functional-API graph of
Generator 1: the placeholder input, application of a `Sequential`
stack, application of a single layer, and `Concatenate()([a, b])`
(every `Concatenate` in the source takes exactly two tensors). -/
inductive TExpr
  | input
  | applySeq (layers : List LayerSpec) (x : TExpr)
  | applyLayer (l : LayerSpec) (x : TExpr)
  | concat (a b : TExpr)
deriving DecidableEq, Repr

/-- The first loop of `create_g1_firegan_unet` (lines 87-90):
`for down in down_stack: x = down(x); skips.append(x)`. -/
def downLoop : List (List LayerSpec) → TExpr → List TExpr → TExpr × List TExpr
  | [], x, skips => (x, skips)
  | d :: ds, x, skips =>
      let x' := TExpr.applySeq d x
      downLoop ds x' (skips ++ [x'])

/-- The second loop of `create_g1_firegan_unet` (lines 93-95), applied to
`zip(up_stack, skips)`: `x = up(x); x = Concatenate()([x, skip])`. -/
def upLoop : List (List LayerSpec × TExpr) → TExpr → TExpr
  | [], x => x
  | (u, skip) :: rest, x =>
      upLoop rest (TExpr.concat (TExpr.applySeq u x) skip)

/-- A functional-API `tf.keras.Model`: declared input shape and the
symbolic expression of its output tensor. -/
structure GraphModel where
  inputShape : List Nat
  output : TExpr
deriving DecidableEq, Repr

/-- `create_g1_firegan_unet()` (lines 57-99): input of shape
`[384, 512, 3]`, the downsampling loop collecting `skips`, the slice
`skips[:-1]` reversed, the upsampling/concatenation loop, and the final
`last` layer. -/
def create_g1_firegan_unet : GraphModel :=
  let inputs := TExpr.input
  let x := inputs
  let r := downLoop down_stack x []
  let x := r.1
  let skips := r.2.dropLast.reverse
  let x := upLoop (up_stack.zip skips) x
  let x := TExpr.applyLayer g1Last x
  { inputShape := [384, 512, 3], output := x }

/-- A Python runtime error surfaced during model construction: an
unresolved-name error, or a shape-mismatch error raised by the
framework. -/
inductive PyError
  | nameError (name : String)
  | shapeMismatch (msg : String)
deriving DecidableEq, Repr

/-- Whether an error is a framework shape-mismatch error. -/
def PyError.isShapeError : PyError → Bool
  | .shapeMismatch _ => true
  | _ => false

/-- The names bound at module level in `fire_gan.py`: the imports of
lines 12-14 and the four functions the module defines.
`SpectralNormalization` is not among them. -/
def moduleBindings : List String :=
  ["tf", "keras", "Conv2D", "BatchNormalization", "Conv2DTranspose", "LeakyReLU",
   "downsample", "upsample", "create_g1_firegan_unet", "create_g2_firegan"]

/-- Python name lookup against the module bindings: succeeds when the
name is bound, raises `NameError` otherwise. -/
def resolveName (n : String) : Except PyError Unit :=
  if moduleBindings.contains n then Except.ok () else Except.error (PyError.nameError n)

/-- A `keras.Sequential` model: the declared input shape and the layers
added to it, in order. -/
structure SeqModel where
  inputShape : List Nat
  layers : List LayerSpec
deriving DecidableEq, Repr

/-- The `keras.Input(shape=(384, 512, 6))` of the spectral branch
(line 119). -/
def g2InputShapeSpectral : List Nat := [384, 512, 6]

/-- The `keras.Input(shape=(384, 512, 6))` of the plain branch
(line 143). -/
def g2InputShapePlain : List Nat := [384, 512, 6]

/-- The layers the `spectral_norm=True` branch of `create_g2_firegan`
adds (lines 121-137), each convolution wrapped in
`SpectralNormalization(...)`; this is what the branch would build if the
name `SpectralNormalization` resolved. -/
def g2LayersSpectral : List LayerSpec :=
  [LayerSpec.spectralNormalization
     (LayerSpec.conv2DTranspose 256 5 5 1 1 Padding.valid KInit.heUniform true Activation.linear),
   LayerSpec.batchNormalization,
   LayerSpec.leakyReLU 20,
   LayerSpec.spectralNormalization
     (LayerSpec.conv2D 128 5 5 1 1 Padding.valid KInit.heUniform true Activation.linear),
   LayerSpec.batchNormalization,
   LayerSpec.leakyReLU 20,
   LayerSpec.spectralNormalization
     (LayerSpec.conv2DTranspose 64 3 3 1 1 Padding.valid KInit.heUniform true Activation.linear),
   LayerSpec.batchNormalization,
   LayerSpec.leakyReLU 20,
   LayerSpec.spectralNormalization
     (LayerSpec.conv2D 32 3 3 1 1 Padding.valid KInit.heUniform true Activation.linear),
   LayerSpec.batchNormalization,
   LayerSpec.leakyReLU 20,
   LayerSpec.spectralNormalization
     (LayerSpec.conv2D 3 1 1 1 1 Padding.valid KInit.heUniform true Activation.tanh)]

/-- The layers the `spectral_norm=False` branch of `create_g2_firegan`
adds (lines 145-161). -/
def g2LayersPlain : List LayerSpec :=
  [LayerSpec.conv2DTranspose 256 5 5 1 1 Padding.valid KInit.heUniform true Activation.linear,
   LayerSpec.batchNormalization,
   LayerSpec.leakyReLU 20,
   LayerSpec.conv2D 128 5 5 1 1 Padding.valid KInit.heUniform true Activation.linear,
   LayerSpec.batchNormalization,
   LayerSpec.leakyReLU 20,
   LayerSpec.conv2DTranspose 64 3 3 1 1 Padding.valid KInit.heUniform true Activation.linear,
   LayerSpec.batchNormalization,
   LayerSpec.leakyReLU 20,
   LayerSpec.conv2D 32 3 3 1 1 Padding.valid KInit.heUniform true Activation.linear,
   LayerSpec.batchNormalization,
   LayerSpec.leakyReLU 20,
   LayerSpec.conv2D 3 1 1 1 1 Padding.valid KInit.heUniform true Activation.tanh]

/-- `create_g2_firegan(spectral_norm)` (lines 103-165).  The branch
on the flag mirrors lines 114/138.  In the `True` branch the first
layer-construction expression evaluates the module-level name
`SpectralNormalization` (line 121); since the module never binds that
name, the branch raises `NameError` before the model is finished.  The
`False` branch builds the plain sequential stack. -/
def create_g2_firegan (spectral_norm : Bool) : Except PyError SeqModel :=
  if spectral_norm then
    match resolveName "SpectralNormalization" with
    | Except.error e => Except.error e
    | Except.ok _ =>
        Except.ok { inputShape := g2InputShapeSpectral, layers := g2LayersSpectral }
  else
    Except.ok { inputShape := g2InputShapePlain, layers := g2LayersPlain }

/-! ## Shape semantics

TensorFlow's output-size formulas, per spatial dimension:
`same`-padding convolution with stride `s` gives `ceil(n / s)`;
`valid`-padding convolution with kernel `k`, stride `s` gives
`floor((n - k) / s) + 1`; `same` transposed convolution gives `n * s`;
`valid` transposed convolution gives `(n - 1) * s + k`. -/

/-- Output spatial size of one convolution dimension. -/
def convOutDim (n k s : Nat) : Padding → Nat
  | Padding.same => (n + s - 1) / s
  | Padding.valid => (n - k) / s + 1

/-- Output spatial size of one transposed-convolution dimension. -/
def convTOutDim (n k s : Nat) : Padding → Nat
  | Padding.same => n * s
  | Padding.valid => (n - 1) * s + k

/-- A tensor shape: height, width, channels. -/
structure Shape3 where
  h : Nat
  w : Nat
  c : Nat
deriving DecidableEq, Repr

/-- Output shape of a single layer. -/
def LayerSpec.outShape : LayerSpec → Shape3 → Shape3
  | .conv2D filters kh kw sh sw p _ _ _, s =>
      { h := convOutDim s.h kh sh p, w := convOutDim s.w kw sw p, c := filters }
  | .conv2DTranspose filters kh kw sh sw p _ _ _, s =>
      { h := convTOutDim s.h kh sh p, w := convTOutDim s.w kw sw p, c := filters }
  | .batchNormalization, s => s
  | .leakyReLU _, s => s
  | .reLU, s => s
  | .dropout _, s => s
  | .spectralNormalization inner, s => inner.outShape s

/-- Output shape of a sequential stack. -/
def seqOutShape (inp : Shape3) (ls : List LayerSpec) : Shape3 :=
  ls.foldl (fun s l => l.outShape s) inp

/-- Shape of a symbolic tensor expression, given the shape of the
input placeholder.  `Concatenate` stacks along the channel axis. -/
def shapeOf (inp : Shape3) : TExpr → Shape3
  | TExpr.input => inp
  | TExpr.applySeq ls x => seqOutShape (shapeOf inp x) ls
  | TExpr.applyLayer l x => l.outShape (shapeOf inp x)
  | TExpr.concat a b =>
      let sa := shapeOf inp a
      let sb := shapeOf inp b
      { h := sa.h, w := sa.w, c := sa.c + sb.c }

/-- The declared Generator 1 input shape `[384, 512, 3]` as a
`Shape3`. -/
def g1InShape : Shape3 := { h := 384, w := 512, c := 3 }

/-- All `(x, skip)` argument pairs of the `Concatenate` nodes of an
expression, innermost (first-executed) first. -/
def concatPairs : TExpr → List (TExpr × TExpr)
  | TExpr.input => []
  | TExpr.applySeq _ x => concatPairs x
  | TExpr.applyLayer _ x => concatPairs x
  | TExpr.concat a b => concatPairs a ++ [(a, b)] ++ concatPairs b

/-- The output tensor of the n-th downsampling stack of Generator 1
(`dOut 0` is the input placeholder). -/
def dOut : Nat → TExpr
  | 0 => TExpr.input
  | n + 1 => TExpr.applySeq (down_stack.getD n []) (dOut n)

/-- The explicit skip-connection pipeline the spec describes:
`skipPipeline 0` is the bottleneck (the seventh downsampling output),
and step `n + 1` applies `up_stack[n]` and concatenates with the
`(6 - n)`-th downsampling output. -/
def skipPipeline : Nat → TExpr
  | 0 => dOut 7
  | n + 1 => TExpr.concat (TExpr.applySeq (up_stack.getD n []) (skipPipeline n)) (dOut (6 - n))

/-- Whether a layer is a convolution or transposed-convolution layer. -/
def isConvLayer : LayerSpec → Bool
  | LayerSpec.conv2D _ _ _ _ _ _ _ _ _ => true
  | LayerSpec.conv2DTranspose _ _ _ _ _ _ _ _ _ => true
  | _ => false

/-- Wrap a layer in `SpectralNormalization` exactly when it is a
convolution / transposed-convolution layer. -/
def wrapIfConv (l : LayerSpec) : LayerSpec :=
  if isConvLayer l then LayerSpec.spectralNormalization l else l

/-- The spatial dimensions recorded after each convolution-kind layer of
a sequential stack (other layers are shape-neutral and skipped). -/
def convTrace : Shape3 → List LayerSpec → List (Nat × Nat)
  | _, [] => []
  | s, l :: ls =>
      let s' := l.outShape s
      if isConvLayer l || (match l with | LayerSpec.spectralNormalization _ => true | _ => false) then
        (s'.h, s'.w) :: convTrace s' ls
      else
        convTrace s' ls

/-! ## Claim theorems -/

/-- C1: the claim says `create_g2_firegan` succeeds for both flag values,
returning a five-block stack with each convolution spectrally normalized
when the flag is true.  The code contradicts its own docstring ("Can
create it with spectral normalizaton or without it"): the spectral
branch evaluates the unbound name `SpectralNormalization` and raises
`NameError`; only the plain branch returns a model. -/
theorem create_g2_spectral_raises_unresolved_name :
    create_g2_firegan true = Except.error (PyError.nameError "SpectralNormalization") ∧
    create_g2_firegan false =
      Except.ok { inputShape := g2InputShapePlain, layers := g2LayersPlain } :=
  ⟨rfl, rfl⟩

/-- C2: the claim says the only construction-time errors are framework
shape-mismatch errors and none originate in the repository's own code.
In fact `create_g2_firegan(True)` raises a `NameError` from this module:
`SpectralNormalization` is not among the module's bindings, and the
resulting error is not a shape-mismatch error. -/
theorem create_g2_error_is_not_a_shape_error :
    moduleBindings.contains "SpectralNormalization" = false ∧
    create_g2_firegan true = Except.error (PyError.nameError "SpectralNormalization") ∧
    (PyError.nameError "SpectralNormalization").isShapeError = false :=
  ⟨rfl, rfl, rfl⟩

/-- C3: the Generator 1 model's output is exactly the pipeline: input
through the seven downsampling stacks (intermediates stored), then the
six upsampling stacks each concatenated with a stored downsampling
output, then the single final transposed-convolution layer. -/
theorem g1_unet_dataflow_pipeline :
    create_g1_firegan_unet.output = TExpr.applyLayer g1Last (skipPipeline 6) ∧
    create_g1_firegan_unet.inputShape = [384, 512, 3] := by
  refine ⟨by decide, by decide⟩

/-- C4: Generator 1's shape-compatibility invariant — there are exactly
six skip-connection concatenations, and at each one the spatial
dimensions (height, width) of the upsample output equal those of the
stored downsample output it is concatenated with. -/
theorem g1_skip_concats_spatially_wellformed :
    (concatPairs create_g1_firegan_unet.output).length = 6 ∧
    (concatPairs create_g1_firegan_unet.output).map
        (fun p => ((shapeOf g1InShape p.1).h, (shapeOf g1InShape p.1).w)) =
      (concatPairs create_g1_firegan_unet.output).map
        (fun p => ((shapeOf g1InShape p.2).h, (shapeOf g1InShape p.2).w)) := by
  refine ⟨by decide, by decide⟩

/-- C5: the two branches of `create_g2_firegan` declare the same input
shape and layer stacks identical in every declared hyperparameter,
differing only in that the spectral branch wraps each of its five
convolution / transposed-convolution layers in
`SpectralNormalization`. -/
theorem g2_branches_differ_only_in_spectral_wrapper :
    g2InputShapeSpectral = g2InputShapePlain ∧
    g2LayersSpectral = g2LayersPlain.map wrapIfConv ∧
    g2LayersPlain.countP (fun l => isConvLayer l) = 5 := by
  refine ⟨by decide, by decide, by decide⟩

/-- C6: for every filter count and kernel size, `downsample` returns
the linear stack Conv2D(stride 2, same padding, no bias) —
BatchNormalization iff the flag is set — LeakyReLU, and `upsample`
returns Conv2DTranspose(stride 2, same padding, no bias) —
BatchNormalization — Dropout(0.5) iff the flag is set — ReLU. -/
theorem downsample_upsample_linear_stacks :
    ∀ (filters size : Nat) (bn dp : Bool),
      downsample filters size bn =
        [LayerSpec.conv2D filters size size 2 2 Padding.same
          (KInit.randomNormal 0 2) false Activation.linear]
        ++ (if bn then [LayerSpec.batchNormalization] else [])
        ++ [LayerSpec.leakyReLU 30] ∧
      upsample filters size dp =
        [LayerSpec.conv2DTranspose filters size size 2 2 Padding.same
          (KInit.randomNormal 0 2) false Activation.linear]
        ++ [LayerSpec.batchNormalization]
        ++ (if dp then [LayerSpec.dropout 50] else [])
        ++ [LayerSpec.reLU] := by
  intro filters size bn dp
  cases bn <;> cases dp <;> simp [downsample, upsample]

/-- C6 instantiated at `filters = 64`, `size = 4`, both flag
combinations of interest. -/
theorem downsample_upsample_linear_stacks_inst :
    downsample 64 4 false =
      [LayerSpec.conv2D 64 4 4 2 2 Padding.same
        (KInit.randomNormal 0 2) false Activation.linear]
      ++ (if false then [LayerSpec.batchNormalization] else [])
      ++ [LayerSpec.leakyReLU 30] ∧
    upsample 64 4 true =
      [LayerSpec.conv2DTranspose 64 4 4 2 2 Padding.same
        (KInit.randomNormal 0 2) false Activation.linear]
      ++ [LayerSpec.batchNormalization]
      ++ (if true then [LayerSpec.dropout 50] else [])
      ++ [LayerSpec.reLU] :=
  downsample_upsample_linear_stacks 64 4 false true

/-- C7: every model `create_g2_firegan` actually returns declares a
6-channel `[384, 512, 6]` input, and its last layer is the 3-filter
1×1 convolution with tanh activation, so the stack's output has 3
channels. -/
theorem g2_six_channel_input_three_channel_tanh_output :
    ∀ (b : Bool) (m : SeqModel), create_g2_firegan b = Except.ok m →
      m.inputShape = [384, 512, 6] ∧
      m.layers.getLast? = some (LayerSpec.conv2D 3 1 1 1 1 Padding.valid
        KInit.heUniform true Activation.tanh) ∧
      (seqOutShape ⟨384, 512, 6⟩ m.layers).c = 3 := by
  intro b m h
  cases b
  · simp [create_g2_firegan] at h
    subst h
    refine ⟨by decide, by decide, by decide⟩
  · simp [create_g2_firegan, resolveName, moduleBindings] at h

/-- C7 instantiated at the plain branch, the one concrete model the
factory returns. -/
theorem g2_six_channel_input_three_channel_tanh_output_inst :
    ({ inputShape := g2InputShapePlain, layers := g2LayersPlain } : SeqModel).inputShape
      = [384, 512, 6] ∧
    ({ inputShape := g2InputShapePlain, layers := g2LayersPlain } : SeqModel).layers.getLast?
      = some (LayerSpec.conv2D 3 1 1 1 1 Padding.valid KInit.heUniform true Activation.tanh) ∧
    (seqOutShape ⟨384, 512, 6⟩
      ({ inputShape := g2InputShapePlain, layers := g2LayersPlain } : SeqModel).layers).c = 3 :=
  g2_six_channel_input_three_channel_tanh_output false
    { inputShape := g2InputShapePlain, layers := g2LayersPlain } rfl

/-- C8: Generator 1 is shape-preserving on its declared `[384, 512, 3]`
input: the seven stride-2 same-padding downsamples reach spatial size
3×4 at the bottleneck, and the full graph's output shape is
`[384, 512, 3]` (not the 256×256-based sizes of the in-code
comments). -/
theorem g1_output_shape_384_512_3 :
    shapeOf g1InShape create_g1_firegan_unet.output = ⟨384, 512, 3⟩ ∧
    shapeOf g1InShape (dOut 7) = ⟨3, 4, 512⟩ ∧
    g1InShape = ⟨384, 512, 3⟩ := by
  refine ⟨by decide, by decide, by decide⟩

/-- C9: the plain branch of Generator 2 is shape-preserving under valid
padding: the spatial sizes after its five convolution layers are
388×516, 384×512, 386×514, 384×512, 384×512 (the +4, −4, +2, −2, 0
changes cancel), and the stack maps shape `[384, 512, 6]` to
`[384, 512, 3]`. -/
theorem g2_plain_shape_preserving_valid_padding :
    seqOutShape ⟨384, 512, 6⟩ g2LayersPlain = ⟨384, 512, 3⟩ ∧
    convTrace ⟨384, 512, 6⟩ g2LayersPlain =
      [(388, 516), (384, 512), (386, 514), (384, 512), (384, 512)] := by
  refine ⟨by decide, by decide⟩

/-- C10: Generator 1's skip wiring — the skip arguments of the six
concatenations, in execution order, are the downsampling outputs 6
down to 1 (so up-stack index i is concatenated with the output of
down-stack index 5−i); the seventh (bottleneck) output is never a skip
argument; and the first argument of the i-th concatenation is
up-stack[i] applied to the pipeline so far, whose start is the
bottleneck fed forward. -/
theorem g1_skip_wiring_reverse_order :
    (concatPairs create_g1_firegan_unet.output).map Prod.snd =
      (List.range 6).map (fun i => dOut (6 - i)) ∧
    ((concatPairs create_g1_firegan_unet.output).map Prod.snd).contains (dOut 7) = false ∧
    (concatPairs create_g1_firegan_unet.output).map Prod.fst =
      (List.range 6).map (fun i => TExpr.applySeq (up_stack.getD i []) (skipPipeline i)) ∧
    skipPipeline 0 = dOut 7 := by
  refine ⟨by decide, by decide, by decide, by decide⟩

end FireGan
